import Mathlib

/-!
# Verification of the eVTOL violation-detection and scoring engine

Shallow embedding of the violation monitors and the master-leaderboard
merge from `src/scripts/monitor_violations_linux.py`,
`src/scripts/Monitoring_violations.py`,
`src/scripts/Separate_Collision_Detection.py` and
`src/scripts/traffic_signal_violation.py`, together with proofs of the
behavioural properties stated in the specification.

Modelling conventions:
* Coordinates, speeds and times are exact rationals (`ℚ`).  The Python
  code compares `math.hypot(dx, dy) < ZONE_RADIUS`; for non-negative
  reals this is equivalent to `dx^2 + dy^2 < ZONE_RADIUS^2`, which is
  how the comparison is embedded (`dist2`), avoiding square roots.
* Python's substring test `needle in hay` is embedded as `containsSub`.
* `defaultdict(int)` counter dictionaries are embedded as one natural
  number field per key actually used by the code.
* CSV rows of `master_violation.csv` are embedded as the structure
  `Row`; the numeric cells are naturals (the code only ever writes
  `str` of non-negative ints and reads them back with `int`).
-/

namespace EVTOL


/-- A CARLA location (`carla.Location`), with exact rational coordinates. -/

structure Location where
  x : ℚ
  y : ℚ
  z : ℚ
deriving DecidableEq, Repr

/-- The constant `ZONE_RADIUS = 2.0` from both monitor scripts. -/

def ZONE_RADIUS : ℚ := 2

/-- Squared 2-D Euclidean distance (x, y only), embedding
`euclidean_distance` / `math.hypot(loc.x - z.x, loc.y - z.y)`:
the code compares the root against `ZONE_RADIUS`, we compare the
square against `ZONE_RADIUS ^ 2`, which is equivalent. -/

def dist2 (a b : Location) : ℚ :=
  (a.x - b.x) ^ 2 + (a.y - b.y) ^ 2

/-- Python's substring containment `needle in hay` on strings. -/

def containsSub (hay needle : String) : Bool :=
  hay.data.tails.any (fun suf => needle.data.isPrefixOf suf)

/-- State of `CollisionMonitor` (`monitor_violations_linux.py` lines
79-114, identically `Monitoring_violations.py` lines 17-58). -/

structure CollisionMonitor where
  zones : List Location
  static_count : ℕ
  dynamic_count : ℕ
deriving DecidableEq, Repr

/-- The freshly constructed monitor (`__init__`). -/

def collisionInit : CollisionMonitor :=
  { zones := [], static_count := 0, dynamic_count := 0 }

/-- Embedding of `CollisionMonitor._cleanup_zones(current_loc)`: keep exactly the
zones strictly within `ZONE_RADIUS` of the current location. -/

def cleanup_zones (m : CollisionMonitor) (current_loc : Location) : CollisionMonitor :=
  { m with zones := m.zones.filter (fun z => decide (dist2 current_loc z < ZONE_RADIUS ^ 2)) }

/-- Embedding of `CollisionMonitor._on_collision(event)`: prune zones at the vehicle
location, absorb the event if the location is strictly inside any
remaining zone, otherwise classify the other actor by
`"vehicle" in other.type_id` and append a new zone at the location. -/

def on_collision (m : CollisionMonitor) (loc : Location) (other_type_id : String) :
    CollisionMonitor :=
  let m1 := cleanup_zones m loc
  if m1.zones.any (fun z => decide (dist2 loc z < ZONE_RADIUS ^ 2)) then m1
  else
    let m2 :=
      if containsSub other_type_id "vehicle" then
        { m1 with dynamic_count := m1.dynamic_count + 1 }
      else
        { m1 with static_count := m1.static_count + 1 }
    { m2 with zones := m2.zones ++ [loc] }

/-- The absorption test performed by `_on_collision` after its internal
prune: is the vehicle location strictly inside some surviving zone? -/

def absorbedB (m : CollisionMonitor) (loc : Location) : Bool :=
  (cleanup_zones m loc).zones.any (fun z => decide (dist2 loc z < ZONE_RADIUS ^ 2))

/-- The `obj_type` classification of `on_collision` in
`Separate_Collision_Detection.py` lines 73-77: label the other actor
"running" when its type id contains "vehicle" or "walker". -/

def obj_type (tid : String) : String :=
  if containsSub tid "vehicle" || containsSub tid "walker" then "running" else "static"

/-- Concrete locations and actor type ids used to instantiate theorems. -/

def locO : Location := { x := 0, y := 0, z := 0 }

def locNear : Location := { x := 1, y := 0, z := 0 }

def locEdge : Location := { x := 2, y := 0, z := 0 }

def locFar : Location := { x := 10, y := 0, z := 0 }

def tidStatic : String := "static.prop.mesh"

def tidWalker : String := "walker.pedestrian.0001"

/-! ## Lane monitor -/

/-- CARLA lane-marking types (`carla.LaneMarkingType`), restricted to
the constructors the monitor inspects plus a catch-all for the rest
(Curb, NONE, ...). -/

inductive LaneMarkingType where
  | SolidSolid
  | Solid
  | Broken
  | Other
deriving DecidableEq, Repr

/-- State of `LaneMonitor` (`monitor_violations_linux.py` lines 116-154,
identically `Monitoring_violations.py` lines 61-100).  The
`defaultdict(int)` of violations is embedded as one field per key the
code uses. -/

structure LaneMonitor where
  last_turn_time : ℚ
  illegal_double_solid_cross : ℕ
  illegal_solid_cross : ℕ
  unjustified_dashed_cross : ℕ
deriving DecidableEq, Repr

/-- The freshly constructed monitor (`__init__`: `last_turn_time = 0`). -/

def laneInit : LaneMonitor :=
  { last_turn_time := 0, illegal_double_solid_cross := 0,
    illegal_solid_cross := 0, unjustified_dashed_cross := 0 }

/-- Embedding of `LaneMonitor._on_lane_violation(event)` at time `now`: suppress the
event while `now - last_turn_time < 5.0`, otherwise count only the
highest-severity marking present (double solid, else solid, else
broken). -/

def on_lane_violation (m : LaneMonitor) (markings : List LaneMarkingType) (now : ℚ) :
    LaneMonitor :=
  if now - m.last_turn_time < 5 then m
  else if LaneMarkingType.SolidSolid ∈ markings then
    { m with illegal_double_solid_cross := m.illegal_double_solid_cross + 1 }
  else if LaneMarkingType.Solid ∈ markings then
    { m with illegal_solid_cross := m.illegal_solid_cross + 1 }
  else if LaneMarkingType.Broken ∈ markings then
    { m with unjustified_dashed_cross := m.unjustified_dashed_cross + 1 }
  else m

/-- Embedding of `LaneMonitor.update_turn_status()`: sampled every control-loop tick;
record the current time when the waypoint nearest the vehicle is a
junction. -/

def update_turn_status (m : LaneMonitor) (is_junction : Bool) (now : ℚ) : LaneMonitor :=
  if is_junction then { m with last_turn_time := now } else m

/-- Total lane violations of a monitor state. -/

def totalLane (m : LaneMonitor) : ℕ :=
  m.illegal_double_solid_cross + m.illegal_solid_cross + m.unjustified_dashed_cross

/-! ## Red-light monitor -/

/-- The states of `carla.TrafficLightState`, restricted to the values the monitor
distinguishes (only Red matters; everything else resets the flag). -/

inductive TLState where
  | Red
  | Yellow
  | Green
deriving DecidableEq, Repr

/-- A stop waypoint of a traffic light: its location and the forward
vector of its rotation (`wp.transform.location`,
`wp.transform.rotation.get_forward_vector()`). -/

structure StopWaypoint where
  loc : Location
  fwd : Location
deriving DecidableEq, Repr

/-- The traffic light currently influencing the vehicle, with its state,
its stop waypoints, and its trigger volume already transformed to world
space (`tl.get_transform().transform(trg.location)`, `trg.extent`). -/

structure TrafficLight where
  state : TLState
  stop_waypoints : List StopWaypoint
  trigger_world_loc : Location
  trigger_extent : Location
deriving DecidableEq, Repr

/-- One polled sample for `RedLightMonitor.tick`: the influencing light
(if any), the vehicle's speed `|velocity|` and its location. -/

structure RLInput where
  tl : Option TrafficLight
  speed : ℚ
  veh_loc : Location
deriving DecidableEq, Repr

/-- State of `RedLightMonitor` (`monitor_violations_linux.py` lines
156-209, identically `Monitoring_violations.py` lines 103-161): the
`violation_logged` flag and the two `defaultdict(int)` counters. -/

structure RedLightMonitor where
  violation_logged : Bool
  stopWaypointPassed : ℕ
  triggerVolume : ℕ
deriving DecidableEq, Repr

/-- The freshly constructed monitor (`__init__`). -/

def rlInit : RedLightMonitor :=
  { violation_logged := false, stopWaypointPassed := 0, triggerVolume := 0 }

/-- The dot product of `(veh_loc - stop_loc)` with the stop line's
forward vector (`RedLightMonitor.tick` lines 196-197). -/

def dotPast (veh : Location) (wp : StopWaypoint) : ℚ :=
  (veh.x - wp.loc.x) * wp.fwd.x + (veh.y - wp.loc.y) * wp.fwd.y + (veh.z - wp.loc.z) * wp.fwd.z

/-- Embedding of `RedLightMonitor.is_inside_trigger_box(tl)`: axis-aligned containment
of the vehicle location in the light's world-space trigger volume. -/

def is_inside_trigger_box (tl : TrafficLight) (veh : Location) : Bool :=
  decide (|tl.trigger_world_loc.x - veh.x| ≤ tl.trigger_extent.x)
    && decide (|tl.trigger_world_loc.y - veh.y| ≤ tl.trigger_extent.y)
    && decide (|tl.trigger_world_loc.z - veh.z| ≤ tl.trigger_extent.z)

/-- The violation type recorded by a tick, when one is detected. -/

inductive ViolKind where
  | StopWaypointPassed
  | TriggerVolume
deriving DecidableEq, Repr

/-- Embedding of `RedLightMonitor.tick()`: reset the flag unless an influencing red
light is present; with a stop waypoint use the dot-product test (the
trigger-volume fallback is the `elif` branch, evaluated only when no
stop waypoint exists); log at most once per continuous dwell via
`violation_logged`. -/

def tick (m : RedLightMonitor) (inp : RLInput) : RedLightMonitor :=
  match inp.tl with
  | none => { m with violation_logged := false }
  | some tl =>
    if tl.state ≠ TLState.Red then { m with violation_logged := false }
    else
      let violation : Option ViolKind :=
        match tl.stop_waypoints.head? with
        | some wp =>
          if dotPast inp.veh_loc wp > 0 ∧ inp.speed > 1 then some ViolKind.StopWaypointPassed
          else none
        | none =>
          if is_inside_trigger_box tl inp.veh_loc = true ∧ inp.speed > 1 then
            some ViolKind.TriggerVolume
          else none
      match violation with
      | some v =>
        if m.violation_logged = false then
          match v with
          | ViolKind.StopWaypointPassed =>
            { m with stopWaypointPassed := m.stopWaypointPassed + 1, violation_logged := true }
          | ViolKind.TriggerVolume =>
            { m with triggerVolume := m.triggerVolume + 1, violation_logged := true }
        else m
      | none => { m with violation_logged := false }

/-- Iterated ticks on a constant input (the input held for `n` control
loop iterations). -/

def iterTick (inp : RLInput) : ℕ → RedLightMonitor → RedLightMonitor
  | 0, m => m
  | n + 1, m => iterTick inp n (tick m inp)

/-- A sample on which the stop-waypoint violation condition holds: an
influencing red light with a stop waypoint, the vehicle past the line
(`dot > 0`) and moving (`speed > 1`). -/

def ViolRedInput (inp : RLInput) : Prop :=
  ∃ tl wp, inp.tl = some tl ∧ tl.state = TLState.Red ∧ tl.stop_waypoints.head? = some wp
    ∧ dotPast inp.veh_loc wp > 0 ∧ inp.speed > 1

/-- A sample on which no red light influences the vehicle (no light, or
a light that is not red). -/

def NotRedInput (inp : RLInput) : Prop :=
  ∀ tl, inp.tl = some tl → tl.state ≠ TLState.Red

/-! ## Master leaderboard (`update_master_csv`) -/

/-- One row of `master_violation.csv` (`update_master_csv`,
`monitor_violations_linux.py` lines 23-77).  The CSV stores decimal
strings; the code parses them back with `int`, so numeric cells are
embedded as naturals.  `datetime` is the "date/time" column. -/

structure Row where
  team_name : String
  datetime : String
  current_lane : ℕ
  lowest_lane : ℕ
  current_collision : ℕ
  lowest_collision : ℕ
  current_redlight : ℕ
  lowest_redlight : ℕ
  current_total : ℕ
  lowest_total : ℕ
deriving DecidableEq, Repr

/-- Python's `str.lower()`: lower-case every character. -/

def pyLower (s : String) : String :=
  String.mk (s.data.map Char.toLower)

/-- Python's `str.strip()`: drop whitespace from both ends. -/

def pyStrip (s : String) : String :=
  String.mk (((s.data.dropWhile Char.isWhitespace).reverse.dropWhile Char.isWhitespace).reverse)

/-- The team-key comparison of the merge loop:
`row["team name"].strip().lower() == team_name.lower()`. -/

def rowMatches (row_team query : String) : Bool :=
  pyLower (pyStrip row_team) == pyLower query

/-- The row appended when the team has no entry (`rows.append({...})`). -/

def freshRow (team now : String) (lane coll red : ℕ) : Row :=
  { team_name := team, datetime := now,
    current_lane := lane, lowest_lane := lane,
    current_collision := coll, lowest_collision := coll,
    current_redlight := red, lowest_redlight := red,
    current_total := lane + coll + red, lowest_total := lane + coll + red }

/-- The in-place update of a matching row (`row.update({...})`,
lines 47-57). -/

def updateRow (r : Row) (now : String) (lane coll red : ℕ) : Row :=
  { r with
    datetime := now,
    current_lane := lane, lowest_lane := min r.lowest_lane lane,
    current_collision := coll, lowest_collision := min r.lowest_collision coll,
    current_redlight := red, lowest_redlight := min r.lowest_redlight red,
    current_total := lane + coll + red,
    lowest_total := min r.lowest_total (lane + coll + red) }

/-- The merge loop of `update_master_csv` (lines 42-58): update the first
row whose normalized team name matches and stop (`break`); report
whether any row matched (`updated`). -/

def update_rows (team now : String) (lane coll red : ℕ) : List Row → Option (List Row)
  | [] => none
  | r :: rs =>
    if rowMatches r.team_name team then some (updateRow r now lane coll red :: rs)
    else
      match update_rows team now lane coll red rs with
      | some rs2 => some (r :: rs2)
      | none => none

/-- Embedding of `update_master_csv(team_name, lane, collision, redlight)` restricted
to its pure core: the transformation of the row list (lines 42-72).  If
no row matched, append a fresh row. -/

def update_master_csv (rows : List Row) (team now : String) (lane coll red : ℕ) : List Row :=
  match update_rows team now lane coll red rows with
  | some rows2 => rows2
  | none => rows ++ [freshRow team now lane coll red]

/-- The ten-column header schema of `master_violation.csv`
(`fieldnames`, lines 27-33). -/

def master_fieldnames : List String :=
  ["team name", "date/time",
   "current_lane", "lowest_lane",
   "current_collision", "lowest_collision",
   "current_redlight", "lowest_redlight",
   "current_total", "lowest_total"]

/-- The header check of `update_master_csv` (lines 35-40): prior rows are
read only when `set(reader.fieldnames or []) == set(fieldnames)`, i.e.
the *sets* of column names agree; otherwise the merge starts from an
empty row list. -/

def read_master_rows (header : List String) (stored : List Row) : List Row :=
  if header.toFinset = master_fieldnames.toFinset then stored else []

/-- The per-row invariant: every lowest field bounded by its current
field. -/

def RowInv (r : Row) : Prop :=
  r.lowest_lane ≤ r.current_lane ∧ r.lowest_collision ≤ r.current_collision
    ∧ r.lowest_redlight ≤ r.current_redlight ∧ r.lowest_total ≤ r.current_total

/-- One session's totals as they reach the master leaderboard. -/

structure Session where
  team : String
  now : String
  lane : ℕ
  coll : ℕ
  red : ℕ
deriving DecidableEq, Repr

/-- Fold a list of sessions through the leaderboard merge. -/

def applySessions : List Row → List Session → List Row
  | rows, [] => rows
  | rows, s :: ss => applySessions (update_master_csv rows s.team s.now s.lane s.coll s.red) ss

/-- A permutation of the expected header (first two columns swapped). -/

def permHeader : List String :=
  ["date/time", "team name",
   "current_lane", "lowest_lane",
   "current_collision", "lowest_collision",
   "current_redlight", "lowest_redlight",
   "current_total", "lowest_total"]

/-- A header whose set of names differs from the expected schema. -/

def badHeader : List String :=
  ["team", "date/time",
   "current_lane", "lowest_lane",
   "current_collision", "lowest_collision",
   "current_redlight", "lowest_redlight",
   "current_total", "lowest_total"]

/-! ## Theorems -/

theorem dist2_comm (a b : Location) : dist2 a b = dist2 b a := by
  unfold dist2; ring

theorem cleanup_zones_static (m : CollisionMonitor) (p : Location) :
    (cleanup_zones m p).static_count = m.static_count := rfl

theorem cleanup_zones_dynamic (m : CollisionMonitor) (p : Location) :
    (cleanup_zones m p).dynamic_count = m.dynamic_count := rfl

theorem on_collision_not_absorbed (m : CollisionMonitor) (loc : Location)
    (tid : String) (h : absorbedB m loc = false) :
    on_collision m loc tid =
      if containsSub tid "vehicle" then
        { zones := (cleanup_zones m loc).zones ++ [loc],
          static_count := m.static_count,
          dynamic_count := m.dynamic_count + 1 }
      else
        { zones := (cleanup_zones m loc).zones ++ [loc],
          static_count := m.static_count + 1,
          dynamic_count := m.dynamic_count } := by
  unfold on_collision
  unfold absorbedB at h
  simp only [h, Bool.false_eq_true, if_false]
  by_cases hv : containsSub tid "vehicle"
  · simp [hv, cleanup_zones]
  · simp [hv, cleanup_zones]

theorem on_collision_absorbed (m : CollisionMonitor) (loc : Location)
    (tid : String) (h : absorbedB m loc = true) :
    on_collision m loc tid = cleanup_zones m loc := by
  unfold on_collision
  unfold absorbedB at h
  simp [h]

theorem on_collision_count_succ (m : CollisionMonitor) (loc : Location)
    (tid : String) (h : absorbedB m loc = false) :
    (on_collision m loc tid).static_count + (on_collision m loc tid).dynamic_count
      = m.static_count + m.dynamic_count + 1 := by
  rw [on_collision_not_absorbed m loc tid h]
  by_cases hv : containsSub tid "vehicle" <;> simp [hv] <;> omega

theorem on_collision_zone_mem (m : CollisionMonitor) (loc : Location)
    (tid : String) (h : absorbedB m loc = false) :
    loc ∈ (on_collision m loc tid).zones := by
  rw [on_collision_not_absorbed m loc tid h]
  by_cases hv : containsSub tid "vehicle" <;> simp [hv]

theorem absorbedB_eq_any (m : CollisionMonitor) (loc : Location) :
    absorbedB m loc = m.zones.any (fun z => decide (dist2 loc z < ZONE_RADIUS ^ 2)) := by
  unfold absorbedB cleanup_zones
  simp only [List.any_filter]
  congr 1
  funext z
  by_cases h : dist2 loc z < ZONE_RADIUS ^ 2 <;> simp [h]

/-- C4: for two collision events at `p1`, `p2` with `dist(p1,p2) < ZONE_RADIUS`
and no intervening prune tick, if the first event is counted then the second
changes no counter and adds no zone (its only effect is the internal prune),
so exactly one incident is counted over the two events; moreover the
inside-a-zone test is strict: at `dist(p1,p2) = ZONE_RADIUS` exactly, both
events are counted. -/
theorem zone_dedup_idempotence (m : CollisionMonitor) (p1 p2 : Location) (t1 t2 : String) :
    (absorbedB m p1 = false → dist2 p1 p2 < ZONE_RADIUS ^ 2 →
      (on_collision (on_collision m p1 t1) p2 t2).static_count
          = (on_collision m p1 t1).static_count
      ∧ (on_collision (on_collision m p1 t1) p2 t2).dynamic_count
          = (on_collision m p1 t1).dynamic_count
      ∧ (on_collision (on_collision m p1 t1) p2 t2).zones
          = (on_collision m p1 t1).zones.filter
              (fun z => decide (dist2 p2 z < ZONE_RADIUS ^ 2))
      ∧ (on_collision m p1 t1).static_count + (on_collision m p1 t1).dynamic_count
          = m.static_count + m.dynamic_count + 1)
    ∧ (dist2 p1 p2 = ZONE_RADIUS ^ 2 →
      (on_collision (on_collision collisionInit p1 t1) p2 t2).static_count
        + (on_collision (on_collision collisionInit p1 t1) p2 t2).dynamic_count = 2) := by
  constructor
  · intro h1 hlt
    have hmem : p1 ∈ (on_collision m p1 t1).zones := on_collision_zone_mem m p1 t1 h1
    have habs : absorbedB (on_collision m p1 t1) p2 = true := by
      rw [absorbedB_eq_any, List.any_eq_true]
      exact ⟨p1, hmem, by simpa [dist2_comm p2 p1] using hlt⟩
    have h2 := on_collision_absorbed (on_collision m p1 t1) p2 t2 habs
    refine ⟨by rw [h2]; rfl, by rw [h2]; rfl, by rw [h2]; rfl,
      on_collision_count_succ m p1 t1 h1⟩
  · intro heq
    have h1 : absorbedB collisionInit p1 = false := by
      rw [absorbedB_eq_any]; rfl
    have hmem1 : (on_collision collisionInit p1 t1).zones = [p1] := by
      rw [on_collision_not_absorbed collisionInit p1 t1 h1]
      by_cases hv : containsSub t1 "vehicle" <;> simp [hv, cleanup_zones, collisionInit]
    have h2 : absorbedB (on_collision collisionInit p1 t1) p2 = false := by
      rw [absorbedB_eq_any, hmem1]
      simp only [List.any_cons, List.any_nil, Bool.or_false]
      rw [dist2_comm p2 p1, heq]
      simp
    have := on_collision_count_succ (on_collision collisionInit p1 t1) p2 t2 h2
    rw [this, on_collision_count_succ collisionInit p1 t1 h1]
    rfl

/-- C4 witness: concrete instantiation of `zone_dedup_idempotence`, both
parts, at distance 1 (< 2) and at distance exactly 2. -/
theorem zone_dedup_idempotence_witness :
    ((on_collision (on_collision collisionInit locO tidStatic) locNear tidStatic).static_count
        + (on_collision (on_collision collisionInit locO tidStatic) locNear tidStatic).dynamic_count
        = 1)
    ∧ ((on_collision (on_collision collisionInit locO tidStatic) locEdge tidStatic).static_count
        + (on_collision (on_collision collisionInit locO tidStatic) locEdge tidStatic).dynamic_count
        = 2) := by
  have h := (zone_dedup_idempotence collisionInit locO locNear tidStatic tidStatic).1
    rfl (by norm_num [dist2, ZONE_RADIUS, locO, locNear])
  have h2 := (zone_dedup_idempotence collisionInit locO locEdge tidStatic tidStatic).2
    (by norm_num [dist2, ZONE_RADIUS, locO, locEdge])
  exact ⟨by rw [h.1, h.2.1, h.2.2.2]; rfl, h2⟩

/-- C5 counterexample: a zone at distance exactly `ZONE_RADIUS` from the
current location does not "exceed" the radius, yet `_cleanup_zones` drops
it (the keep-test is strict `<`, so zones at distance `≥ ZONE_RADIUS` are
dropped, not only those strictly beyond it). -/
theorem prune_boundary_counterexample :
    (cleanup_zones { zones := [locEdge], static_count := 0, dynamic_count := 0 } locO).zones = []
    ∧ dist2 locO locEdge = ZONE_RADIUS ^ 2 := by
  have hge : ¬ dist2 locO locEdge < ZONE_RADIUS ^ 2 := by
    norm_num [dist2, ZONE_RADIUS, locO, locEdge]
  have hb : decide (dist2 locO locEdge < ZONE_RADIUS ^ 2) = false := decide_eq_false hge
  refine ⟨?_, by norm_num [dist2, ZONE_RADIUS, locO, locEdge]⟩
  simp [cleanup_zones, hb]

/-- C5 amended: `_cleanup_zones` keeps exactly the zones at distance
strictly less than `ZONE_RADIUS` (hence drops those at distance
`≥ ZONE_RADIUS`); and if the vehicle is more than `ZONE_RADIUS` away from
every zone when a prune tick runs, a subsequent collision (in particular
at an original zone location) is counted as a new incident. -/
theorem prune_keeps_strictly_within (m : CollisionMonitor) (cur : Location) :
    (∀ z, z ∈ (cleanup_zones m cur).zones ↔ z ∈ m.zones ∧ dist2 cur z < ZONE_RADIUS ^ 2)
    ∧ ((∀ z ∈ m.zones, ZONE_RADIUS ^ 2 < dist2 cur z) →
        ∀ (loc : Location) (tid : String),
          (on_collision (cleanup_zones m cur) loc tid).static_count
            + (on_collision (cleanup_zones m cur) loc tid).dynamic_count
            = m.static_count + m.dynamic_count + 1) := by
  constructor
  · intro z
    simp [cleanup_zones, List.mem_filter]
  · intro hfar loc tid
    have hnil : (cleanup_zones m cur).zones = [] := by
      unfold cleanup_zones
      simp only [List.filter_eq_nil_iff, decide_eq_true_eq]
      intro z hz
      exact not_lt_of_gt (hfar z hz)
    have habs : absorbedB (cleanup_zones m cur) loc = false := by
      rw [absorbedB_eq_any, hnil]; rfl
    rw [on_collision_count_succ (cleanup_zones m cur) loc tid habs]
    rfl

/-- C5 amended witness: vehicle at distance 10 from the only zone; after
the prune, a collision back at the old zone location is a new incident. -/
theorem prune_keeps_strictly_within_witness :
    (on_collision
        (cleanup_zones { zones := [locO], static_count := 3, dynamic_count := 1 } locFar)
        locO tidStatic).static_count
      + (on_collision
          (cleanup_zones { zones := [locO], static_count := 3, dynamic_count := 1 } locFar)
          locO tidStatic).dynamic_count = 5 :=
  (prune_keeps_strictly_within { zones := [locO], static_count := 3, dynamic_count := 1 }
    locFar).2
    (by
      intro z hz
      simp only [List.mem_singleton] at hz
      subst hz
      norm_num [dist2, ZONE_RADIUS, locO, locFar])
    locO tidStatic

/-- C6 counterexample: `CollisionMonitor._on_collision` classifies a
collision with a walker (`"walker.pedestrian.0001"`, which contains
"walker") as a static collision, not a dynamic one — the dynamic branch
tests only `"vehicle" in other.type_id`. -/
theorem collision_walker_counterexample :
    (on_collision collisionInit locO tidWalker).static_count = 1
    ∧ (on_collision collisionInit locO tidWalker).dynamic_count = 0
    ∧ containsSub tidWalker "walker" = true := by
  decide

/-- C6 amended: for a non-absorbed collision, `CollisionMonitor` classifies
the other actor as dynamic exactly when its type id contains "vehicle"
(walkers count as static), exactly one of the two counters is incremented
by one and one new zone at the vehicle location is recorded; the standalone
logger `Separate_Collision_Detection.on_collision` labels the object
"running" exactly when the type id contains "vehicle" or "walker". -/
theorem collision_classification_amended (m : CollisionMonitor) (loc : Location) (tid : String) :
    absorbedB m loc = false →
    ((containsSub tid "vehicle" = true →
        on_collision m loc tid
          = { zones := (cleanup_zones m loc).zones ++ [loc],
              static_count := m.static_count,
              dynamic_count := m.dynamic_count + 1 })
     ∧ (containsSub tid "vehicle" = false →
        on_collision m loc tid
          = { zones := (cleanup_zones m loc).zones ++ [loc],
              static_count := m.static_count + 1,
              dynamic_count := m.dynamic_count })
     ∧ (obj_type tid = "running" ↔
          (containsSub tid "vehicle" = true ∨ containsSub tid "walker" = true))) := by
  intro h
  refine ⟨?_, ?_, ?_⟩
  · intro hv
    rw [on_collision_not_absorbed m loc tid h, if_pos hv]
  · intro hv
    rw [on_collision_not_absorbed m loc tid h, if_neg (by simp [hv])]
  · have hsr : ("static" : String) ≠ "running" := by decide
    unfold obj_type
    by_cases hv : containsSub tid "vehicle" = true
    · simp [hv]
    · by_cases hw : containsSub tid "walker" = true
      · simp [hv, hw]
      · simp [hv, hw, hsr]

/-- C6 amended witness: a walker collision at a fresh monitor goes to the
static counter, and the standalone logger labels it "running". -/
theorem collision_classification_amended_witness :
    on_collision collisionInit locO tidWalker
        = { zones := [locO], static_count := 1, dynamic_count := 0 }
    ∧ obj_type tidWalker = "running" := by
  have h := collision_classification_amended collisionInit locO tidWalker (by decide)
  refine ⟨?_, h.2.2.mpr (Or.inr (by decide))⟩
  have h2 := h.2.1 (by decide)
  rw [h2]
  rfl

/-- C7: for a non-suppressed lane-crossing event only the single
highest-severity marking category present is counted, with priority
double-solid > solid > broken; whenever a solid marking is present the
dashed counter never moves; and no event (suppressed or not) changes the
three counters by more than one in total. -/
theorem lane_severity_priority (m : LaneMonitor) (markings : List LaneMarkingType) (now : ℚ) :
    (5 ≤ now - m.last_turn_time →
      ((LaneMarkingType.SolidSolid ∈ markings →
          on_lane_violation m markings now
            = { m with illegal_double_solid_cross := m.illegal_double_solid_cross + 1 })
       ∧ (LaneMarkingType.SolidSolid ∉ markings → LaneMarkingType.Solid ∈ markings →
          on_lane_violation m markings now
            = { m with illegal_solid_cross := m.illegal_solid_cross + 1 })
       ∧ (LaneMarkingType.SolidSolid ∉ markings → LaneMarkingType.Solid ∉ markings →
          LaneMarkingType.Broken ∈ markings →
          on_lane_violation m markings now
            = { m with unjustified_dashed_cross := m.unjustified_dashed_cross + 1 })))
    ∧ (LaneMarkingType.Solid ∈ markings →
        (on_lane_violation m markings now).unjustified_dashed_cross
          = m.unjustified_dashed_cross)
    ∧ totalLane (on_lane_violation m markings now) ≤ totalLane m + 1 := by
  have hns : ∀ h : ¬ now - m.last_turn_time < 5, True := fun _ => trivial
  refine ⟨fun h5 => ?_, ?_, ?_⟩
  · have hnot : ¬ now - m.last_turn_time < 5 := not_lt_of_ge h5
    refine ⟨fun hss => ?_, fun hss hs => ?_, fun hss hs hb => ?_⟩
    · rw [on_lane_violation, if_neg hnot, if_pos hss]
    · rw [on_lane_violation, if_neg hnot, if_neg hss, if_pos hs]
    · rw [on_lane_violation, if_neg hnot, if_neg hss, if_neg hs, if_pos hb]
  · intro hs
    unfold on_lane_violation
    by_cases h5 : now - m.last_turn_time < 5
    · rw [if_pos h5]
    · rw [if_neg h5]
      by_cases hss : LaneMarkingType.SolidSolid ∈ markings
      · rw [if_pos hss]
      · rw [if_neg hss, if_pos hs]
  · unfold on_lane_violation totalLane
    by_cases h5 : now - m.last_turn_time < 5
    · simp [h5]
    · rw [if_neg h5]
      by_cases hss : LaneMarkingType.SolidSolid ∈ markings
      · simp [hss]; omega
      · rw [if_neg hss]
        by_cases hs : LaneMarkingType.Solid ∈ markings
        · simp [hs]; omega
        · rw [if_neg hs]
          by_cases hb : LaneMarkingType.Broken ∈ markings
          · simp [hb]; omega
          · simp [hb]

/-- C7 witness: an armed monitor receiving `{Solid, Broken}` increments
only the solid counter. -/
theorem lane_severity_priority_witness :
    on_lane_violation laneInit [LaneMarkingType.Solid, LaneMarkingType.Broken] 9
      = { laneInit with illegal_solid_cross := 1 }
    ∧ (on_lane_violation laneInit [LaneMarkingType.Solid, LaneMarkingType.Broken] 9).unjustified_dashed_cross
      = laneInit.unjustified_dashed_cross := by
  have h := lane_severity_priority laneInit [LaneMarkingType.Solid, LaneMarkingType.Broken] 9
  have h1 := (h.1 (by norm_num [laneInit])).2.1 (by decide) (by decide)
  exact ⟨h1, h.2.1 (by decide)⟩

/-- C8 counterexample: a junction tick at time 1 followed by a lane
crossing at time 6 — the junction tick lies inside the claim's closed
window `[t-5, t]` (since `6 - 5 ≤ 1`), yet the crossing is counted
(`6 - 1 < 5` is false), contradicting "suppressed if any junction tick
occurred in `[t-5.0s, t]`". -/
theorem junction_window_counterexample :
    (on_lane_violation (update_turn_status laneInit true 1) [LaneMarkingType.Solid] 6).illegal_solid_cross = 1
    ∧ (6 : ℚ) - 5 ≤ 1 ∧ (1 : ℚ) ≤ 6 := by
  refine ⟨?_, by norm_num, by norm_num⟩
  have : update_turn_status laneInit true 1
      = { laneInit with last_turn_time := 1 } := rfl
  rw [this, on_lane_violation, if_neg (by norm_num [laneInit]),
    if_neg (by decide), if_pos (by decide)]
  rfl

/-- C8 amended: a lane-crossing event at time `t` is suppressed entirely
exactly when `t - lastJunctionTime < 5.0` — a half-open window, i.e. a
junction tick strictly less than 5 s before the event suppresses it,
while one exactly 5 s before (or earlier) does not; when not suppressed
and a recognized marking is present, exactly one counter is incremented;
and a junction tick sets `lastJunctionTime` to the current time exactly
when the nearest road position is a junction. -/
theorem junction_suppression_amended (m : LaneMonitor) (markings : List LaneMarkingType)
    (now jnow : ℚ) (isj : Bool) :
    (now - m.last_turn_time < 5 → on_lane_violation m markings now = m)
    ∧ (5 ≤ now - m.last_turn_time →
        (LaneMarkingType.SolidSolid ∈ markings ∨ LaneMarkingType.Solid ∈ markings ∨
            LaneMarkingType.Broken ∈ markings) →
        totalLane (on_lane_violation m markings now) = totalLane m + 1)
    ∧ (update_turn_status m isj jnow).last_turn_time
        = (if isj then jnow else m.last_turn_time) := by
  refine ⟨fun h5 => ?_, fun h5 hmk => ?_, ?_⟩
  · rw [on_lane_violation, if_pos h5]
  · have hnot : ¬ now - m.last_turn_time < 5 := not_lt_of_ge h5
    unfold on_lane_violation totalLane
    rw [if_neg hnot]
    by_cases hss : LaneMarkingType.SolidSolid ∈ markings
    · simp [hss]; omega
    · rw [if_neg hss]
      by_cases hs : LaneMarkingType.Solid ∈ markings
      · simp [hs]; omega
      · rw [if_neg hs]
        by_cases hb : LaneMarkingType.Broken ∈ markings
        · simp [hb]; omega
        · rcases hmk with h | h | h
          · exact absurd h hss
          · exact absurd h hs
          · exact absurd h hb
  · unfold update_turn_status
    by_cases hij : isj <;> simp [hij]

/-- C8 amended witness: an event 4.9 s after a junction tick is
suppressed; one 5 s after is counted; a junction tick updates the
timestamp. -/
theorem junction_suppression_amended_witness :
    on_lane_violation { laneInit with last_turn_time := 1 } [LaneMarkingType.Solid] (59/10)
      = { laneInit with last_turn_time := 1 }
    ∧ totalLane (on_lane_violation { laneInit with last_turn_time := 1 } [LaneMarkingType.Solid] 6)
      = totalLane { laneInit with last_turn_time := 1 } + 1
    ∧ (update_turn_status laneInit true 1).last_turn_time = (if true then (1:ℚ) else laneInit.last_turn_time) := by
  refine ⟨?_, ?_, ?_⟩
  · exact (junction_suppression_amended { laneInit with last_turn_time := 1 }
      [LaneMarkingType.Solid] (59/10) 1 true).1 (by norm_num [laneInit])
  · exact (junction_suppression_amended { laneInit with last_turn_time := 1 }
      [LaneMarkingType.Solid] 6 1 true).2.1 (by norm_num [laneInit]) (Or.inr (Or.inl (by decide)))
  · exact (junction_suppression_amended laneInit [] 0 1 true).2.2

theorem tick_viol_idle (m : RedLightMonitor) (inp : RLInput) (hv : ViolRedInput inp)
    (hl : m.violation_logged = false) :
    tick m inp = { violation_logged := true, stopWaypointPassed := m.stopWaypointPassed + 1,
                   triggerVolume := m.triggerVolume } := by
  obtain ⟨tl, wp, htl, hred, hwp, hdot, hsp⟩ := hv
  unfold tick
  rw [htl]
  simp only [hred, ne_eq, not_true_eq_false, if_false, hwp]
  rw [if_pos ⟨hdot, hsp⟩]
  simp [hl]

theorem tick_viol_logged (m : RedLightMonitor) (inp : RLInput) (hv : ViolRedInput inp)
    (hl : m.violation_logged = true) :
    tick m inp = m := by
  obtain ⟨tl, wp, htl, hred, hwp, hdot, hsp⟩ := hv
  unfold tick
  rw [htl]
  simp only [hred, ne_eq, not_true_eq_false, if_false, hwp]
  rw [if_pos ⟨hdot, hsp⟩]
  simp [hl]

theorem tick_notred (m : RedLightMonitor) (inp : RLInput) (hn : NotRedInput inp) :
    tick m inp = { m with violation_logged := false } := by
  unfold tick
  cases htl : inp.tl with
  | none => rfl
  | some tl =>
    have := hn tl htl
    simp [this]

theorem iterTick_viol_logged (inp : RLInput) (hv : ViolRedInput inp) :
    ∀ (k : ℕ) (m : RedLightMonitor), m.violation_logged = true → iterTick inp k m = m := by
  intro k
  induction k with
  | zero => intro m _; rfl
  | succ n ih =>
    intro m hl
    show iterTick inp n (tick m inp) = m
    rw [tick_viol_logged m inp hv hl, ih m hl]

theorem iterTick_viol_once (inp : RLInput) (hv : ViolRedInput inp) (m : RedLightMonitor)
    (hl : m.violation_logged = false) (k : ℕ) (hk : 1 ≤ k) :
    iterTick inp k m = { violation_logged := true, stopWaypointPassed := m.stopWaypointPassed + 1,
                         triggerVolume := m.triggerVolume } := by
  obtain ⟨j, rfl⟩ : ∃ j, k = j + 1 := ⟨k - 1, by omega⟩
  show iterTick inp j (tick m inp) = _
  rw [tick_viol_idle m inp hv hl]
  exact iterTick_viol_logged inp hv j _ rfl

theorem iterTick_notred (inp : RLInput) (hn : NotRedInput inp) :
    ∀ (k : ℕ) (m : RedLightMonitor), 1 ≤ k →
      iterTick inp k m = { m with violation_logged := false } := by
  intro k
  induction k with
  | zero => intro m h; omega
  | succ n ih =>
    intro m _
    show iterTick inp n (tick m inp) = _
    rcases Nat.eq_zero_or_pos n with h0 | hpos
    · subst h0; rw [tick_notred m inp hn]; rfl
    · rw [tick_notred m inp hn, ih _ hpos]

/-- C3 counterexample: a vehicle *stationary* (speed 0) past the stop
line of a red light never increments the counter — the code requires
`speed > 1.0`, so after 30 ticks (3 s at 10 Hz) both red-light counters
are still 0, not 1.  The concrete input has the vehicle 3 m past the
stop line (`dot = 3 > 0`), the light red, and speed 0. -/
theorem redlight_stationary_counterexample :
    (iterTick { tl := some { state := TLState.Red,
                             stop_waypoints := [{ loc := locO, fwd := { x := 1, y := 0, z := 0 } }],
                             trigger_world_loc := locO,
                             trigger_extent := { x := 5, y := 5, z := 5 } },
                speed := 0,
                veh_loc := { x := 3, y := 0, z := 0 } } 30 rlInit).stopWaypointPassed = 0
    ∧ (iterTick { tl := some { state := TLState.Red,
                               stop_waypoints := [{ loc := locO, fwd := { x := 1, y := 0, z := 0 } }],
                               trigger_world_loc := locO,
                               trigger_extent := { x := 5, y := 5, z := 5 } },
                  speed := 0,
                  veh_loc := { x := 3, y := 0, z := 0 } } 30 rlInit).triggerVolume = 0
    ∧ dotPast { x := 3, y := 0, z := 0 } { loc := locO, fwd := { x := 1, y := 0, z := 0 } } > 0 := by
  have hstep : ∀ m : RedLightMonitor,
      tick m { tl := some { state := TLState.Red,
                            stop_waypoints := [{ loc := locO, fwd := { x := 1, y := 0, z := 0 } }],
                            trigger_world_loc := locO,
                            trigger_extent := { x := 5, y := 5, z := 5 } },
               speed := 0,
               veh_loc := { x := 3, y := 0, z := 0 } }
        = { m with violation_logged := false } := by
    intro m
    unfold tick
    simp only [ne_eq, not_true_eq_false, if_false, List.head?]
    rw [if_neg]
    rintro ⟨-, hsp⟩
    norm_num at hsp
  have hiter : ∀ (k : ℕ) (m : RedLightMonitor), 1 ≤ k →
      iterTick { tl := some { state := TLState.Red,
                              stop_waypoints := [{ loc := locO, fwd := { x := 1, y := 0, z := 0 } }],
                              trigger_world_loc := locO,
                              trigger_extent := { x := 5, y := 5, z := 5 } },
                 speed := 0,
                 veh_loc := { x := 3, y := 0, z := 0 } } k m
        = { m with violation_logged := false } := by
    intro k
    induction k with
    | zero => intro m h; omega
    | succ n ih =>
      intro m _
      show iterTick _ n (tick m _) = _
      rcases Nat.eq_zero_or_pos n with h0 | hpos
      · subst h0; rw [hstep m]; rfl
      · rw [hstep m, ih _ hpos]
  rw [hiter 30 rlInit (by omega)]
  refine ⟨rfl, rfl, ?_⟩
  norm_num [dotPast, locO]

/-- C3 amended: a vehicle *moving faster than 1 m/s* past a stop line
while the influencing light is red increments the stop-waypoint counter
exactly once, regardless of how many ticks the dwell lasts (any `k ≥ 1`
ticks); once `Logged`, further ticks of the same dwell never recount;
and after the light leaves red (`j ≥ 1` non-red ticks) a second red
dwell increments the counter again. -/
theorem redlight_debounce_amended (inp g : RLInput) (m : RedLightMonitor) (k j l : ℕ) :
    ViolRedInput inp → NotRedInput g → m.violation_logged = false →
    1 ≤ k → 1 ≤ j → 1 ≤ l →
    (iterTick inp k m).stopWaypointPassed = m.stopWaypointPassed + 1
    ∧ (iterTick inp k m).triggerVolume = m.triggerVolume
    ∧ (iterTick inp l (iterTick g j (iterTick inp k m))).stopWaypointPassed
        = m.stopWaypointPassed + 2 := by
  intro hv hn hl hk hj hl1
  have h1 := iterTick_viol_once inp hv m hl k hk
  refine ⟨by rw [h1], by rw [h1], ?_⟩
  rw [h1, iterTick_notred g hn j _ hj]
  rw [iterTick_viol_once inp hv _ rfl l hl1]

/-- C3 amended witness: a concrete red light with the vehicle 3 m past
the stop line at speed 2 m/s, held for 30 ticks, then 10 green ticks,
then 30 more red ticks: the counter reads 1 after the first dwell and 2
after the second. -/
theorem redlight_debounce_amended_witness :
    (iterTick { tl := some { state := TLState.Red,
                             stop_waypoints := [{ loc := locO, fwd := { x := 1, y := 0, z := 0 } }],
                             trigger_world_loc := locO,
                             trigger_extent := { x := 5, y := 5, z := 5 } },
                speed := 2, veh_loc := { x := 3, y := 0, z := 0 } } 30 rlInit).stopWaypointPassed
      = 1
    ∧ (iterTick { tl := some { state := TLState.Red,
                               stop_waypoints := [{ loc := locO, fwd := { x := 1, y := 0, z := 0 } }],
                               trigger_world_loc := locO,
                               trigger_extent := { x := 5, y := 5, z := 5 } },
                  speed := 2, veh_loc := { x := 3, y := 0, z := 0 } } 30
        (iterTick { tl := some { state := TLState.Green,
                                 stop_waypoints := [{ loc := locO, fwd := { x := 1, y := 0, z := 0 } }],
                                 trigger_world_loc := locO,
                                 trigger_extent := { x := 5, y := 5, z := 5 } },
                    speed := 2, veh_loc := { x := 3, y := 0, z := 0 } } 10
          (iterTick { tl := some { state := TLState.Red,
                                   stop_waypoints := [{ loc := locO, fwd := { x := 1, y := 0, z := 0 } }],
                                   trigger_world_loc := locO,
                                   trigger_extent := { x := 5, y := 5, z := 5 } },
                      speed := 2, veh_loc := { x := 3, y := 0, z := 0 } } 30 rlInit))).stopWaypointPassed
      = 2 := by
  have h := redlight_debounce_amended
    { tl := some { state := TLState.Red,
                   stop_waypoints := [{ loc := locO, fwd := { x := 1, y := 0, z := 0 } }],
                   trigger_world_loc := locO,
                   trigger_extent := { x := 5, y := 5, z := 5 } },
      speed := 2, veh_loc := { x := 3, y := 0, z := 0 } }
    { tl := some { state := TLState.Green,
                   stop_waypoints := [{ loc := locO, fwd := { x := 1, y := 0, z := 0 } }],
                   trigger_world_loc := locO,
                   trigger_extent := { x := 5, y := 5, z := 5 } },
      speed := 2, veh_loc := { x := 3, y := 0, z := 0 } }
    rlInit 30 10 30
    ⟨_, _, rfl, rfl, rfl, by norm_num [dotPast, locO], by norm_num⟩
    (by intro tl htl; cases htl; decide)
    rfl (by omega) (by omega) (by omega)
  exact ⟨h.1, h.2.2⟩

/-- C10: whenever the influencing light is red and exposes at least one
stop waypoint, the trigger-volume fallback is never used (the
trigger-volume counter cannot move on that tick, whatever the vehicle's
position and speed); and if the dot-product test fails (`dot ≤ 0`) or
`speed ≤ 1`, no violation of either type is recorded and the state
machine resets to `Idle` (`violation_logged = false`). -/
theorem stop_waypoint_precedence (m : RedLightMonitor) (inp : RLInput) (tl : TrafficLight)
    (wp : StopWaypoint) :
    inp.tl = some tl → tl.state = TLState.Red →
    ((tl.stop_waypoints ≠ [] → (tick m inp).triggerVolume = m.triggerVolume)
     ∧ (tl.stop_waypoints.head? = some wp →
        (dotPast inp.veh_loc wp ≤ 0 ∨ inp.speed ≤ 1) →
        tick m inp = { m with violation_logged := false })) := by
  intro htl hred
  constructor
  · intro hne
    obtain ⟨w, ws, hws⟩ : ∃ w ws, tl.stop_waypoints = w :: ws := by
      cases h : tl.stop_waypoints with
      | nil => exact absurd h hne
      | cons a l => exact ⟨a, l, rfl⟩
    unfold tick
    rw [htl]
    simp only [hred, ne_eq, not_true_eq_false, if_false, hws, List.head?_cons]
    by_cases hcond : dotPast inp.veh_loc w > 0 ∧ inp.speed > 1
    · rw [if_pos hcond]
      by_cases hlog : m.violation_logged = false
      · simp [hlog]
      · simp [hlog]
    · rw [if_neg hcond]
  · intro hwp hfail
    unfold tick
    rw [htl]
    simp only [hred, ne_eq, not_true_eq_false, if_false, hwp]
    rw [if_neg]
    rintro ⟨hdot, hsp⟩
    rcases hfail with h | h
    · exact absurd hdot (not_lt_of_ge h)
    · exact absurd hsp (not_lt_of_ge h)

/-- C10 witness: a red light with a stop waypoint, the vehicle before
the line (`dot = -3`) but inside the trigger volume at speed 2: the tick
records nothing and resets the flag, and the trigger counter is
untouched. -/
theorem stop_waypoint_precedence_witness :
    tick { violation_logged := true, stopWaypointPassed := 4, triggerVolume := 7 }
        { tl := some { state := TLState.Red,
                       stop_waypoints := [{ loc := locO, fwd := { x := 1, y := 0, z := 0 } }],
                       trigger_world_loc := locO,
                       trigger_extent := { x := 5, y := 5, z := 5 } },
          speed := 2, veh_loc := { x := -3, y := 0, z := 0 } }
      = { violation_logged := false, stopWaypointPassed := 4, triggerVolume := 7 }
    ∧ is_inside_trigger_box
        { state := TLState.Red,
          stop_waypoints := [{ loc := locO, fwd := { x := 1, y := 0, z := 0 } }],
          trigger_world_loc := locO,
          trigger_extent := { x := 5, y := 5, z := 5 } }
        { x := -3, y := 0, z := 0 } = true := by
  constructor
  · exact (stop_waypoint_precedence
      { violation_logged := true, stopWaypointPassed := 4, triggerVolume := 7 }
      { tl := some { state := TLState.Red,
                     stop_waypoints := [{ loc := locO, fwd := { x := 1, y := 0, z := 0 } }],
                     trigger_world_loc := locO,
                     trigger_extent := { x := 5, y := 5, z := 5 } },
        speed := 2, veh_loc := { x := -3, y := 0, z := 0 } }
      { state := TLState.Red,
        stop_waypoints := [{ loc := locO, fwd := { x := 1, y := 0, z := 0 } }],
        trigger_world_loc := locO,
        trigger_extent := { x := 5, y := 5, z := 5 } }
      { loc := locO, fwd := { x := 1, y := 0, z := 0 } }
      rfl rfl).2 rfl (Or.inl (by norm_num [dotPast, locO]))
  · unfold is_inside_trigger_box
    norm_num [locO]

theorem update_rows_none (team now : String) (lane coll red : ℕ) :
    ∀ rows : List Row, (∀ r ∈ rows, rowMatches r.team_name team = false) →
      update_rows team now lane coll red rows = none := by
  intro rows
  induction rows with
  | nil => intro _; rfl
  | cons r rs ih =>
    intro h
    unfold update_rows
    rw [if_neg (by simp [h r (by simp)])]
    rw [ih (fun x hx => h x (by simp [hx]))]

theorem update_rows_first_match (team now : String) (lane coll red : ℕ) :
    ∀ (pre : List Row) (r : Row) (post : List Row),
      (∀ x ∈ pre, rowMatches x.team_name team = false) →
      rowMatches r.team_name team = true →
      update_rows team now lane coll red (pre ++ r :: post)
        = some (pre ++ updateRow r now lane coll red :: post) := by
  intro pre
  induction pre with
  | nil =>
    intro r post _ hr
    simp only [List.nil_append, update_rows]
    rw [if_pos hr]
  | cons p ps ih =>
    intro r post hpre hr
    simp only [List.cons_append, update_rows]
    rw [if_neg (by simp [hpre p (by simp)])]
    rw [List.append_eq, ih r post (fun x hx => hpre x (by simp [hx])) hr]

/-- Every position of the row list survives an `update_rows` pass, either
unchanged or updated. -/
theorem update_rows_get (team now : String) (lane coll red : ℕ) :
    ∀ (rows rows2 : List Row), update_rows team now lane coll red rows = some rows2 →
      ∀ (i : ℕ) (r : Row), rows.get? i = some r →
        rows2.get? i = some r ∨ rows2.get? i = some (updateRow r now lane coll red) := by
  intro rows
  induction rows with
  | nil => intro rows2 h; simp [update_rows] at h
  | cons x xs ih =>
    intro rows2 h i r hget
    unfold update_rows at h
    by_cases hm : rowMatches x.team_name team = true
    · rw [if_pos hm] at h
      cases h
      cases i with
      | zero =>
        simp only [List.get?] at hget ⊢
        cases hget
        exact Or.inr rfl
      | succ n =>
        simp only [List.get?] at hget ⊢
        exact Or.inl hget
    · rw [if_neg hm] at h
      cases hrec : update_rows team now lane coll red xs with
      | none => rw [hrec] at h; cases h
      | some ys =>
        rw [hrec] at h
        cases h
        cases i with
        | zero =>
          simp only [List.get?] at hget ⊢
          cases hget
          exact Or.inl rfl
        | succ n =>
          simp only [List.get?] at hget ⊢
          exact ih ys hrec n r hget

theorem rowInv_updateRow (r : Row) (now : String) (lane coll red : ℕ) :
    RowInv (updateRow r now lane coll red) := by
  refine ⟨?_, ?_, ?_, ?_⟩ <;> simp [updateRow, min_le_right]

theorem rowInv_freshRow (team now : String) (lane coll red : ℕ) :
    RowInv (freshRow team now lane coll red) := by
  refine ⟨?_, ?_, ?_, ?_⟩ <;> simp [freshRow]

theorem update_rows_mem (team now : String) (lane coll red : ℕ) :
    ∀ (rows rows2 : List Row), update_rows team now lane coll red rows = some rows2 →
      ∀ r2 ∈ rows2, r2 ∈ rows ∨ ∃ r ∈ rows, r2 = updateRow r now lane coll red := by
  intro rows
  induction rows with
  | nil => intro rows2 h; simp [update_rows] at h
  | cons x xs ih =>
    intro rows2 h r2 hr2
    unfold update_rows at h
    by_cases hm : rowMatches x.team_name team = true
    · rw [if_pos hm] at h
      cases h
      rcases List.mem_cons.mp hr2 with h2 | h2
      · exact Or.inr ⟨x, by simp, h2⟩
      · exact Or.inl (by simp [h2])
    · rw [if_neg hm] at h
      cases hrec : update_rows team now lane coll red xs with
      | none => rw [hrec] at h; cases h
      | some ys =>
        rw [hrec] at h
        cases h
        rcases List.mem_cons.mp hr2 with h2 | h2
        · exact Or.inl (by simp [h2])
        · rcases ih ys hrec r2 h2 with h3 | ⟨r, hr, h3⟩
          · exact Or.inl (by simp [h3])
          · exact Or.inr ⟨r, by simp [hr], h3⟩

theorem update_master_csv_inv (rows : List Row) (team now : String) (lane coll red : ℕ)
    (hinv : ∀ r ∈ rows, RowInv r) :
    ∀ r ∈ update_master_csv rows team now lane coll red, RowInv r := by
  intro r hr
  unfold update_master_csv at hr
  cases h : update_rows team now lane coll red rows with
  | none =>
    rw [h] at hr
    rcases List.mem_append.mp hr with h2 | h2
    · exact hinv r h2
    · simp only [List.mem_singleton] at h2
      exact h2 ▸ rowInv_freshRow team now lane coll red
  | some rows2 =>
    rw [h] at hr
    rcases update_rows_mem team now lane coll red rows rows2 h r hr with h2 | ⟨r0, _, h2⟩
    · exact hinv r h2
    · exact h2 ▸ rowInv_updateRow r0 now lane coll red

theorem applySessions_inv (sessions : List Session) :
    ∀ rows : List Row, (∀ r ∈ rows, RowInv r) →
      ∀ r ∈ applySessions rows sessions, RowInv r := by
  induction sessions with
  | nil => intro rows h r hr; exact h r hr
  | cons s ss ih =>
    intro rows h r hr
    exact ih _ (update_master_csv_inv rows s.team s.now s.lane s.coll s.red h) r hr

/-- C1: the master-leaderboard merge.  With no matching row, a fresh row
with `current = lowest = (lane, coll, red, lane+coll+red)` is appended;
with a (first) matching row, each current field is set to the new total,
each lowest field to the minimum of its old value and the new total
independently per category, and `lowest_total` to
`min(old lowest_total, new current_total)` — not to the sum of the
per-category minimums.  In particular Alpha's sessions `(3,1,0)` then
`(1,2,1)` produce `current=(1,2,1,4)`, `lowest=(1,1,0,4)`. -/
theorem master_merge_spec (rows pre post : List Row) (r : Row) (team now : String)
    (lane coll red : ℕ) :
    ((∀ x ∈ rows, rowMatches x.team_name team = false) →
      update_master_csv rows team now lane coll red
        = rows ++ [{ team_name := team, datetime := now,
                     current_lane := lane, lowest_lane := lane,
                     current_collision := coll, lowest_collision := coll,
                     current_redlight := red, lowest_redlight := red,
                     current_total := lane + coll + red,
                     lowest_total := lane + coll + red }])
    ∧ ((∀ x ∈ pre, rowMatches x.team_name team = false) →
       rowMatches r.team_name team = true →
       update_master_csv (pre ++ r :: post) team now lane coll red
         = pre ++ { r with
                    datetime := now,
                    current_lane := lane, lowest_lane := min r.lowest_lane lane,
                    current_collision := coll, lowest_collision := min r.lowest_collision coll,
                    current_redlight := red, lowest_redlight := min r.lowest_redlight red,
                    current_total := lane + coll + red,
                    lowest_total := min r.lowest_total (lane + coll + red) } :: post)
    ∧ update_master_csv (update_master_csv [] "Alpha" "t1" 3 1 0) "Alpha" "t2" 1 2 1
        = [{ team_name := "Alpha", datetime := "t2",
             current_lane := 1, lowest_lane := 1,
             current_collision := 2, lowest_collision := 1,
             current_redlight := 1, lowest_redlight := 0,
             current_total := 4, lowest_total := 4 }] := by
  refine ⟨fun hnone => ?_, fun hpre hr => ?_, ?_⟩
  · unfold update_master_csv
    rw [update_rows_none team now lane coll red rows hnone]
    rfl
  · unfold update_master_csv
    rw [update_rows_first_match team now lane coll red pre r post hpre hr]
    rfl
  · rfl

/-- C1 witness: the Alpha scenario step by step through the two branches
of `master_merge_spec`. -/
theorem master_merge_spec_witness :
    update_master_csv [] "Alpha" "t1" 3 1 0 = [freshRow "Alpha" "t1" 3 1 0]
    ∧ update_master_csv [freshRow "Alpha" "t1" 3 1 0] "Alpha" "t2" 1 2 1
        = [updateRow (freshRow "Alpha" "t1" 3 1 0) "t2" 1 2 1] := by
  have h1 := (master_merge_spec [] [] [] (freshRow "Alpha" "t1" 3 1 0) "Alpha" "t1" 3 1 0).1
    (by simp)
  have h2 := (master_merge_spec [] [] [] (freshRow "Alpha" "t1" 3 1 0) "Alpha" "t2" 1 2 1).2.1
    (by simp) (by decide)
  exact ⟨h1, h2⟩

/-- C2: leaderboard monotonicity.  After any finite sequence of merges
starting from an empty table, every row satisfies
`lowest_* ≤ current_*` in all four categories; and across one merge,
every row that persists at its position has each of its four lowest
fields no larger than before. -/
theorem leaderboard_monotonicity (sessions : List Session) (rows : List Row)
    (team now : String) (lane coll red : ℕ) (i : ℕ) (r r2 : Row) :
    (∀ r3 ∈ applySessions [] sessions,
       r3.lowest_lane ≤ r3.current_lane ∧ r3.lowest_collision ≤ r3.current_collision
         ∧ r3.lowest_redlight ≤ r3.current_redlight ∧ r3.lowest_total ≤ r3.current_total)
    ∧ (rows.get? i = some r →
       (update_master_csv rows team now lane coll red).get? i = some r2 →
       r2.lowest_lane ≤ r.lowest_lane ∧ r2.lowest_collision ≤ r.lowest_collision
         ∧ r2.lowest_redlight ≤ r.lowest_redlight ∧ r2.lowest_total ≤ r.lowest_total) := by
  constructor
  · intro r3 h3
    exact applySessions_inv sessions [] (by simp) r3 h3
  · intro hget hget2
    unfold update_master_csv at hget2
    cases h : update_rows team now lane coll red rows with
    | none =>
      rw [h] at hget2
      have hlt : i < rows.length := (List.get?_eq_some.mp hget).1
      rw [List.get?_append hlt, hget] at hget2
      cases hget2
      exact ⟨le_refl _, le_refl _, le_refl _, le_refl _⟩
    | some rows2 =>
      rw [h] at hget2
      rcases update_rows_get team now lane coll red rows rows2 h i r hget with h2 | h2
      · rw [h2] at hget2
        cases hget2
        exact ⟨le_refl _, le_refl _, le_refl _, le_refl _⟩
      · rw [h2] at hget2
        cases hget2
        exact ⟨min_le_left _ _, min_le_left _ _, min_le_left _ _, min_le_left _ _⟩

/-- C2 witness: Alpha's two sessions satisfy the invariant, and the
merge of session 2 into session 1's row lowers no lowest field. -/
theorem leaderboard_monotonicity_witness :
    ((updateRow (freshRow "Alpha" "t1" 3 1 0) "t2" 1 2 1).lowest_lane
        ≤ (freshRow "Alpha" "t1" 3 1 0).lowest_lane
      ∧ (updateRow (freshRow "Alpha" "t1" 3 1 0) "t2" 1 2 1).lowest_collision
        ≤ (freshRow "Alpha" "t1" 3 1 0).lowest_collision
      ∧ (updateRow (freshRow "Alpha" "t1" 3 1 0) "t2" 1 2 1).lowest_redlight
        ≤ (freshRow "Alpha" "t1" 3 1 0).lowest_redlight
      ∧ (updateRow (freshRow "Alpha" "t1" 3 1 0) "t2" 1 2 1).lowest_total
        ≤ (freshRow "Alpha" "t1" 3 1 0).lowest_total)
    ∧ ∀ r3 ∈ applySessions []
        [{ team := "Alpha", now := "t1", lane := 3, coll := 1, red := 0 },
         { team := "Alpha", now := "t2", lane := 1, coll := 2, red := 1 }],
        r3.lowest_lane ≤ r3.current_lane ∧ r3.lowest_collision ≤ r3.current_collision
          ∧ r3.lowest_redlight ≤ r3.current_redlight ∧ r3.lowest_total ≤ r3.current_total := by
  constructor
  · exact (leaderboard_monotonicity [] [freshRow "Alpha" "t1" 3 1 0] "Alpha" "t2" 1 2 1 0
      (freshRow "Alpha" "t1" 3 1 0) (updateRow (freshRow "Alpha" "t1" 3 1 0) "t2" 1 2 1)).2
      rfl (by decide)
  · exact (leaderboard_monotonicity
      [{ team := "Alpha", now := "t1", lane := 3, coll := 1, red := 0 },
       { team := "Alpha", now := "t2", lane := 1, coll := 2, red := 1 }]
      [] "Alpha" "t1" 0 0 0 0 (freshRow "Alpha" "t1" 3 1 0)
      (freshRow "Alpha" "t1" 3 1 0)).1

/-- C9 counterexample: a header that lists the expected ten columns in a
different order is *not* an exact match of the schema, yet the merge
keeps the stored rows — the code compares `set(fieldnames)`, so column
order (and duplicates) are ignored, contradicting "does not exactly
match ⟹ treated as unreadable". -/
theorem header_exact_match_counterexample :
    read_master_rows permHeader [freshRow "alpha" "t0" 1 2 3] = [freshRow "alpha" "t0" 1 2 3]
    ∧ permHeader ≠ master_fieldnames := by
  constructor
  · unfold read_master_rows
    rw [if_pos (by decide)]
  · decide

/-- C9 amended: the merge reads prior rows exactly when the *set* of
header column names equals the expected set (order-insensitive); any
header with a different name-set is treated as unreadable and the merge
proceeds from an empty table, discarding prior rows. -/
theorem header_set_match_amended (header : List String) (stored : List Row)
    (team now : String) (lane coll red : ℕ) :
    (header.toFinset ≠ master_fieldnames.toFinset →
       read_master_rows header stored = []
       ∧ update_master_csv (read_master_rows header stored) team now lane coll red
           = update_master_csv [] team now lane coll red)
    ∧ (header.toFinset = master_fieldnames.toFinset →
       read_master_rows header stored = stored) := by
  constructor
  · intro h
    have h0 : read_master_rows header stored = [] := by
      unfold read_master_rows
      rw [if_neg h]
    exact ⟨h0, by rw [h0]⟩
  · intro h
    unfold read_master_rows
    rw [if_pos h]

/-- C9 amended witness: a name-set mismatch discards the stored row; the
exact expected header preserves it. -/
theorem header_set_match_amended_witness :
    read_master_rows badHeader [freshRow "alpha" "t0" 1 2 3] = []
    ∧ read_master_rows master_fieldnames [freshRow "alpha" "t0" 1 2 3]
        = [freshRow "alpha" "t0" 1 2 3] := by
  constructor
  · exact ((header_set_match_amended badHeader [freshRow "alpha" "t0" 1 2 3]
      "x" "t" 0 0 0).1 (by decide)).1
  · exact (header_set_match_amended master_fieldnames [freshRow "alpha" "t0" 1 2 3]
      "x" "t" 0 0 0).2 rfl

end EVTOL
